import Mathlib

/-
  Verification development for the gmail-claude-runner repository.

  The pipeline under study lives in src/notification_handler.py (class
  NotificationHandler), with helpers in src/gmail_service.py and constants in
  src/config.py.  Python strings are embedded as lists of characters
  (ASCII-faithful lower/upper/strip); Python sets of identifier strings are
  embedded as lists standing for the iteration order of the set (only
  membership and cardinality matter to the properties below); wall-clock
  times are naturals (seconds); fallible external calls return Option, with
  none standing for the "unavailable" sentinel (the None that
  retry_gmail_operation produces after exhausting its retries).
-/

set_option maxRecDepth 4000

abbrev Str := List Char

/-- Embed a Lean string literal as the character-list model of a Python str. -/
def str (s : String) : Str := s.toList

/-- The whitespace characters stripped by Python str.strip(). -/
def pyWs (c : Char) : Bool :=
  c == ' ' || c == '\t' || c == '\n' || c == '\r' || c == '\x0b' || c == '\x0c'

/-- ASCII lower-casing of one character, as Python str.lower() acts on ASCII. -/
def lowerC (c : Char) : Char :=
  if 'A' ≤ c && c ≤ 'Z' then Char.ofNat (c.toNat + 32) else c

/-- ASCII upper-casing of one character, as Python str.upper() acts on ASCII. -/
def upperC (c : Char) : Char :=
  if 'a' ≤ c && c ≤ 'z' then Char.ofNat (c.toNat - 32) else c

/-- Python str.lower() on the ASCII fragment. -/
def lowerS (s : Str) : Str := s.map lowerC

/-- Python str.upper() on the ASCII fragment. -/
def upperS (s : Str) : Str := s.map upperC

/-- Drop leading Python whitespace. -/
def trimLeftS (s : Str) : Str := s.dropWhile pyWs

/-- Drop trailing Python whitespace. -/
def trimRightS (s : Str) : Str := ((s.reverse).dropWhile pyWs).reverse

/-- Python str.strip(): drop leading and trailing whitespace. -/
def trimS (s : Str) : Str := trimRightS (trimLeftS s)

/-- Does the text start with the pattern?  (Python str.startswith.) -/
def startsW : Str → Str → Bool
  | [], _ => true
  | _ :: _, [] => false
  | p :: ps, t :: ts => p == t && startsW ps ts

/-- Substring containment, the semantics of the Python operator
    "pattern in text". -/
def containsSub (pat : Str) : Str → Bool
  | [] => pat.isEmpty
  | c :: ts => startsW pat (c :: ts) || containsSub pat ts

theorem startsW_append (p r : Str) : startsW p (p ++ r) = true := by
  induction p with
  | nil => rfl
  | cons c cs ih => simp [startsW, ih]

theorem containsSub_of_startsW {p t : Str} (h : startsW p t = true) :
    containsSub p t = true := by
  cases t with
  | nil =>
    cases p with
    | nil => rfl
    | cons c cs => simp [startsW] at h
  | cons c ts => simp [containsSub, h]

/-- A pattern is contained in any text it prefixes, with anything appended. -/
theorem containsSub_append (p r : Str) : containsSub p (p ++ r) = true :=
  containsSub_of_startsW (startsW_append p r)

theorem trimRightS_append {a : Str} (r : Str) (ha : trimRightS a = a) :
    trimRightS (a ++ r) = a ++ trimRightS r := by
  unfold trimRightS at *
  rw [List.reverse_append, List.dropWhile_append]
  by_cases h : (r.reverse.dropWhile pyWs).isEmpty
  · rw [if_pos h, ha]
    rw [List.isEmpty_iff] at h
    rw [h]
    simp
  · rw [if_neg h]
    simp

theorem trimLeftS_cons_of {c : Char} (s : Str) (hc : pyWs c = false) :
    trimLeftS (c :: s) = c :: s := by
  unfold trimLeftS
  rw [List.dropWhile_cons, hc]
  simp

/-- Stripping a string that begins with a non-whitespace marker keeps the
    marker as a prefix: only trailing whitespace of the remainder goes. -/
theorem trimS_marker_append {c : Char} {a : Str} (r : Str)
    (hc : pyWs c = false) (ha : trimRightS (c :: a) = c :: a) :
    trimS ((c :: a) ++ r) = (c :: a) ++ trimRightS r := by
  unfold trimS
  rw [List.cons_append, trimLeftS_cons_of (a ++ r) hc, ← List.cons_append,
    trimRightS_append r ha]

theorem lowerS_append (a b : Str) : lowerS (a ++ b) = lowerS a ++ lowerS b := by
  simp [lowerS]

/- ===================================================================
   Retry Wrapper — NotificationHandler.retry_gmail_operation
   (src/notification_handler.py lines 73-84).

   An operation is embedded as a function from the attempt index to what the
   Python callable does on that invocation: return a value, raise an
   exception of the transient class caught at line 78 (ssl.SSLError,
   HttpError, ConnectionError, OSError), or raise any other exception.
   =================================================================== -/

inductive GmailErr where
  | transient (msg : String)
  | nontransient (msg : String)
deriving DecidableEq, Repr

inductive RetryOutcome (α : Type) where
  | val (v : α)
  | unavailable
  | raised (msg : String)
deriving DecidableEq, Repr

structure RetryTrace (α : Type) where
  outcome : RetryOutcome α
  sleeps : List Nat
  calls : Nat
deriving DecidableEq, Repr

/-- The retry loop starting at the given attempt index, with rem loop
    iterations remaining (rem = max_retries - attempt).  On the final
    iteration (rem = 1, i.e. attempt == max_retries - 1 in the Python) a
    transient failure returns None; earlier transient failures sleep
    delay * 2 ^ attempt and retry; a non-transient exception propagates at
    once; an empty range returns None (line 84). -/
def retryFrom (op : Nat → Except GmailErr α) (delay : Nat) :
    Nat → Nat → RetryTrace α
  | _, 0 => ⟨.unavailable, [], 0⟩
  | attempt, rem + 1 =>
    match op attempt with
    | .ok v => ⟨.val v, [], 1⟩
    | .error (.nontransient m) => ⟨.raised m, [], 1⟩
    | .error (.transient _) =>
      if rem = 0 then ⟨.unavailable, [], 1⟩
      else
        let t := retryFrom op delay (attempt + 1) rem
        ⟨t.outcome, delay * 2 ^ attempt :: t.sleeps, t.calls + 1⟩

/-- retry_gmail_operation(operation, max_retries, delay); the Python
    defaults are max_retries = 3 and delay = 2. -/
def retry_gmail_operation (op : Nat → Except GmailErr α)
    (max_retries delay : Nat) : RetryTrace α :=
  retryFrom op delay 0 max_retries

theorem retryFrom_all_transient (op : Nat → Except GmailErr α) (delay : Nat) :
    ∀ rem attempt, 0 < rem →
    (∀ k, attempt ≤ k → k < attempt + rem → ∃ m, op k = .error (.transient m)) →
    retryFrom op delay attempt rem =
      ⟨.unavailable, (List.range (rem - 1)).map (fun i => delay * 2 ^ (attempt + i)),
        rem⟩ := by
  intro rem
  induction rem with
  | zero => intro attempt h; omega
  | succ n ih =>
    intro attempt _ hop
    obtain ⟨m, hm⟩ := hop attempt (Nat.le_refl _) (by omega)
    unfold retryFrom
    rw [hm]
    cases n with
    | zero => simp
    | succ n' =>
      rw [if_neg (by omega)]
      rw [ih (attempt + 1) (by omega) (fun k hk1 hk2 => hop k (by omega) (by omega))]
      simp [List.range_succ_eq_map]
      intro a _
      omega

/- ===================================================================
   Eligibility Filter — NotificationHandler.is_valid_claude_email
   (src/notification_handler.py lines 115-151).

   The three header fetches go through retry_gmail_operation; the embedding
   receives their results directly (none = the unavailable sentinel).  The
   target address and required subject are the constants of
   src/config.py lines 22-23, hardcoded again at lines 137-145 of the
   handler.
   =================================================================== -/

def targetAddr : Str := str "jonathanmingli@gmail.com"

def requiredSubjectUpper : Str := str "CLAUDE"

/-- is_valid_claude_email, as a function of the fetched sender, recipient
    and subject (none when the retry wrapper returned None). -/
def is_valid_claude_email (sender recipient subject : Option Str) :
    Bool × Str :=
  match sender, recipient, subject with
  | some s, some r, some j =>
    if lowerS s ≠ targetAddr then
      (false, str "Sender is not jonathanmingli@gmail.com")
    else if lowerS r ≠ targetAddr then
      (false, str "Recipient is not jonathanmingli@gmail.com")
    else if upperS j ≠ requiredSubjectUpper then
      (false, str "Subject is not CLAUDE")
    else
      (true, str "Email meets all criteria for Claude processing")
  | _, _, _ =>
    (false, str "Failed to retrieve email details due to network errors")

/-- Modelled from the spec claim wording only, for comparison with
    is_valid_claude_email: subject compared case-insensitively AFTER
    TRIMMING (the code of is_valid_claude_email does not trim). -/
def isEligibleSpecTrimmed (sender recipient subject : Option Str) : Bool :=
  match sender, recipient, subject with
  | some s, some r, some j =>
    lowerS s == targetAddr && lowerS r == targetAddr &&
      upperS (trimS j) == requiredSubjectUpper
  | _, _, _ => false

/- ===================================================================
   Eligibility Filter — NotificationHandler.is_system_generated_email
   (src/notification_handler.py lines 86-113).
   =================================================================== -/

/-- The fixed pattern list of lines 95-102.  Six patterns in the source. -/
def system_patterns : List Str :=
  [str "ack", str "Progress update:", str "Task completed!",
   str "Claude processing failed with error:",
   str "Processing with Claude Code", str "Claude response generated"]

/-- is_system_generated_email(message_content, sender_email, message_id),
    as a function of the content, the current sent_message_ids set and the
    message id (the sender argument is unused by the source too). -/
def is_system_generated_email (content : Str) (sentIds : List String)
    (mid : String) : Bool × Str :=
  if mid ∈ sentIds then
    (true, str "Email was sent by this system")
  else
    let cl := trimS (lowerS content)
    match system_patterns.find? (fun p => containsSub (lowerS p) cl) with
    | some p =>
      (true, str "Email contains system pattern: '" ++ p ++ str "'")
    | none =>
      if cl.length < 10 then
        (true, str "Email is too short (likely system-generated)")
      else
        (false, str "Email appears to be user-generated")

/-- Modelled from the spec claim wording only, for comparison with
    is_system_generated_email: the claim enumerates FIVE marker substrings
    (acknowledgment, progress-update, completion, failure,
    processing-started); the source has a sixth pattern
    "Claude response generated". -/
def specFiveMarkers : List Str :=
  [str "ack", str "Progress update:", str "Task completed!",
   str "Claude processing failed with error:",
   str "Processing with Claude Code"]

def isSystemGeneratedSpecFive (content : Str) (sentIds : List String)
    (mid : String) : Bool :=
  decide (mid ∈ sentIds) ||
    specFiveMarkers.any (fun p => containsSub (lowerS p) (trimS (lowerS content))) ||
    (trimS (lowerS content)).length < 10

/- ===================================================================
   Dedup Ledger compaction — NotificationHandler.cleanup_processed_messages
   (src/notification_handler.py lines 153-180), acting on the three sets
   and the last-cleanup clock of the handler state.  The Python keeps
   "the last n" of the arbitrary iteration order of each set; the model
   keeps the last n of the list standing for that order — only the
   retained counts matter to the claims.
   =================================================================== -/

structure SysState where
  processed : List String
  historyIds : List String
  sentIds : List String
  lastCleanup : Nat
  sendCount : Nat
  attempts : List Str
  agentCalls : List (String × Str × Str)
deriving DecidableEq, Repr

/-- Keep the last n entries of a list, as the Python slice [-n:]. -/
def keepLast (n : Nat) (l : List String) : List String :=
  l.drop (l.length - n)

def cleanup_processed_messages (now : Nat) (st : SysState) : SysState :=
  if 3600 < now - st.lastCleanup then
    { st with
      processed :=
        if 100 < st.processed.length then keepLast 50 st.processed
        else st.processed,
      historyIds :=
        if 100 < st.historyIds.length then keepLast 50 st.historyIds
        else st.historyIds,
      sentIds :=
        if 50 < st.sentIds.length then keepLast 25 st.sentIds
        else st.sentIds,
      lastCleanup := now }
  else st

/-- Modelled from the spec claim wording only, for comparison with
    cleanup_processed_messages: every one of the three sets capped at 100
    (the source caps sent_message_ids at 50, line 175). -/
def cleanupSpecCap100 (now : Nat) (st : SysState) : SysState :=
  if 3600 < now - st.lastCleanup then
    { st with
      processed :=
        if 100 < st.processed.length then keepLast 50 st.processed
        else st.processed,
      historyIds :=
        if 100 < st.historyIds.length then keepLast 50 st.historyIds
        else st.historyIds,
      sentIds :=
        if 100 < st.sentIds.length then keepLast 25 st.sentIds
        else st.sentIds,
      lastCleanup := now }
  else st

theorem keepLast_length (n : Nat) (l : List String) :
    (keepLast n l).length = min n l.length := by
  simp [keepLast]
  omega

/- ===================================================================
   Dispatch Worker — NotificationHandler.process_notification
   (src/notification_handler.py lines 182-399) and the Pub/Sub callback
   (lines 401-423).

   The mailbox, agent and transport collaborators are embedded as an
   environment of response functions; none is the unavailable sentinel
   that retry_gmail_operation returns after exhausting retries.  The
   mailbox is read-only while a notification is processed, so the per-id
   response functions are deterministic.  The real wall-clock timeout of
   the callback (future.result(timeout=600)) is outside the model; the
   body of process_notification is wrapped in a catch-all try/except
   (line 398), so the submitted future never raises and the callback
   reaches message.ack() whenever decoding succeeded.
   =================================================================== -/

/-- Result of the candidate-resolution step, lines 201-232: either the
    history lookup produced a truthy list whose messagesAdded extraction is
    the given ids (possibly zero of them), or the fallback unread query was
    taken (history lookup returned None, raised, or returned an empty
    list). -/
inductive HistRes where
  | unavailable
  | changes (ids : List String)
deriving DecidableEq, Repr

structure Notification where
  emailAddress : Option String
  historyId : String
deriving DecidableEq, Repr

structure Env where
  now : Nat
  historyRes : String → HistRes
  unread : Option (List String)
  timestamp : String → Option Nat
  senderOf : String → Option Str
  recipientOf : String → Option Str
  subjectOf : String → Option Str
  contentOf : String → Option Str
  threadIdOf : String → Option String
  sendId : Nat → Option String
  agentChunks : List Str
  agentResult : Str → Str → Except Str Str

/-- The staleness gate of lines 257-260: Python tests
    "message_timestamp and message_timestamp < self.server_start_time",
    so both the None sentinel and a 0 timestamp (the error fallback of
    gmail_service.get_message_timestamp, lines 163-172) are falsy and do
    NOT trigger the skip. -/
def staleGate (ts : Option Nat) (epoch : Nat) : Bool :=
  match ts with
  | some t => (t != 0) && decide (t < epoch)
  | none => false

/-- Truthiness of the fetched thread id: None and the empty string (the
    error fallback of gmail_service.get_thread_id, line 195) are falsy. -/
def threadTruthy : Option String → Option String
  | none => none
  | some s => if s == "" then none else some s

/-- One reply-send attempt (gmail_service.send_reply_email through the
    retry wrapper): the environment decides the outcome of the k-th send
    of the run; on a truthy returned id the caller records it in
    sent_message_ids (lines 324-328, 350-354, 371-375, 390-394). -/
def doSend (env : Env) (st : SysState) (body : Str) : SysState :=
  { st with
    sendCount := st.sendCount + 1,
    attempts := st.attempts ++ [body],
    sentIds :=
      match env.sendId st.sendCount with
      | some i => st.sentIds ++ [i]
      | none => st.sentIds }

/-- One streaming update delivered to progress_callback (lines 336-354).
    The accumulator carries the state and len(progress_updates); the
    update is appended first, then forwarded when the thread id is truthy,
    the chunk exceeds 50 characters and the count is a multiple of 3. -/
def progressStep (env : Env) (tid : Option String)
    (acc : SysState × Nat) (chunk : Str) : SysState × Nat :=
  let st := acc.1
  let n := acc.2 + 1
  if tid.isSome && decide (50 < chunk.length) && decide (n % 3 = 0) then
    (doSend env st (str "Progress update:\n\n" ++ chunk), n)
  else
    (st, n)

/-- The whole streaming phase: progress_updates starts empty for each
    candidate. -/
def progressRun (env : Env) (tid : Option String) (st : SysState)
    (chunks : List Str) : SysState :=
  (chunks.foldl (progressStep env tid) (st, 0)).1

/-- Lines 308-310: add the id to processed_messages before any reply or
    agent work begins. -/
def markProcessed (st : SysState) (mid : String) : SysState :=
  { st with processed := st.processed ++ [mid] }

/-- Lines 317-330: send the acknowledgment reply when the thread id is
    truthy; a send failure is non-fatal. -/
def ackStage (env : Env) (tid : Option String) (st : SysState) : SysState :=
  match tid with
  | some _ => doSend env st (str "ack")
  | none => st

/-- Line 356: the agent invocation itself, recorded with the message id,
    the body passed as the prompt and the sender identity. -/
def recordAgent (st : SysState) (mid : String) (body sndr : Str) : SysState :=
  { st with agentCalls := st.agentCalls ++ [(mid, body, sndr)] }

/-- Lines 360-396: after streaming ends, send the final reply on success
    (only for a truthy thread id and non-empty response) or the error
    notice on an agent exception (only for a truthy thread id). -/
def finalStage (env : Env) (tid : Option String) (st : SysState)
    (res : Except Str Str) : SysState :=
  match res with
  | .ok resp =>
    match tid with
    | some _ =>
      if resp.isEmpty then st
      else doSend env st (str "Task completed!\n\n" ++ resp)
    | none => st
  | .error e =>
    match tid with
    | some _ =>
      doSend env st (str "Claude processing failed with error: " ++ e)
    | none => st

/-- The phase after all gates have passed, lines 308-396: mark processed,
    fetch thread id, ack reply, agent invocation with streaming, and the
    final or error reply. -/
def afterGates (env : Env) (st : SysState) (mid : String)
    (body sndr : Str) : SysState :=
  finalStage env (threadTruthy (env.threadIdOf mid))
    (progressRun env (threadTruthy (env.threadIdOf mid))
      (recordAgent
        (ackStage env (threadTruthy (env.threadIdOf mid)) (markProcessed st mid))
        mid body sndr)
      env.agentChunks)
    (env.agentResult body sndr)

/-- The body of the per-candidate loop, lines 242-396: dedup check, stale
    check, eligibility, content and sender fetch, system-generated check,
    subject re-fetch, empty check, then the post-gate phase. -/
def processCandidate (env : Env) (epoch : Nat) (st : SysState)
    (mid : String) : SysState :=
  if mid ∈ st.processed then st
  else if staleGate (env.timestamp mid) epoch then st
  else if !(is_valid_claude_email (env.senderOf mid) (env.recipientOf mid)
      (env.subjectOf mid)).1 then st
  else
    match env.contentOf mid, env.senderOf mid with
    | some body, some sndr =>
      if (is_system_generated_email body st.sentIds mid).1 then st
      else
        match env.subjectOf mid with
        | none => st
        | some _ =>
          if (trimS body).isEmpty then st
          else afterGates env st mid body sndr
    | _, _ => st

/-- process_notification (lines 182-399): cleanup, history-id dedup
    (atomic check-and-insert under one lock acquisition, lines 194-198),
    candidate resolution with unread fallback, early return when the
    resolution is unavailable (lines 234-236), then the candidate loop. -/
def process_notification (env : Env) (epoch : Nat) (st : SysState)
    (n : Notification) : SysState :=
  let st0 := cleanup_processed_messages env.now st
  if n.historyId ∈ st0.historyIds then st0
  else
    let st1 := { st0 with historyIds := st0.historyIds ++ [n.historyId] }
    let msgs :=
      match env.historyRes n.historyId with
      | .changes ids => some ids
      | .unavailable => env.unread
    match msgs with
    | none => st1
    | some ids => ids.foldl (processCandidate env epoch) st1

inductive CbResult where
  | ack
  | nack
deriving DecidableEq, Repr

/-- The Pub/Sub callback (lines 401-423): a payload that fails to decode
    raises out of decode_notification_data and is nacked (line 423); a
    decoded one is submitted and, because process_notification catches
    every exception, the future completes and the message is acked
    (line 415).  The 10-minute real-time timeout is outside the model. -/
def callback (env : Env) (epoch : Nat) (st : SysState)
    (payload : Option Notification) : SysState × CbResult :=
  match payload with
  | none => (st, .nack)
  | some n => (process_notification env epoch st n, .ack)

/- ===================================================================
   Interleaving model for the duplicate-notification race on one
   candidate message id.

   Two workers of the ThreadPoolExecutor each run the per-candidate code
   for the same message id (two distinct notifications can both resolve
   the same unread message).  Lock-protected regions are atomic steps:
     check  = the dedup membership test, lines 247-250 (no insert there);
     mark   = the insert into processed_messages, lines 308-310;
     invoke = the agent invocation, line 356.
   The fetch-and-filter gates between check and mark read no shared
   mutable state relevant to the race, so they are absorbed into the
   transition from check to mark; a worker whose check finds the id
   present stops (continue).
   =================================================================== -/

inductive WPc where
  | start
  | ready
  | marked
  | done
deriving DecidableEq, Repr

structure RaceState where
  processed : List String
  agentRuns : List String
  pc0 : WPc
  pc1 : WPc
deriving DecidableEq, Repr

def wpcOf (s : RaceState) (w : Bool) : WPc := if w then s.pc1 else s.pc0

def setPc (s : RaceState) (w : Bool) (p : WPc) : RaceState :=
  if w then { s with pc1 := p } else { s with pc0 := p }

/-- One atomic step of worker w on candidate id mid. -/
def wstep (mid : String) (s : RaceState) (w : Bool) : RaceState :=
  match wpcOf s w with
  | .start =>
    if mid ∈ s.processed then setPc s w .done else setPc s w .ready
  | .ready =>
    setPc { s with processed := s.processed ++ [mid] } w .marked
  | .marked =>
    setPc { s with agentRuns := s.agentRuns ++ [mid] } w .done
  | .done => s

def runSched (mid : String) (sched : List Bool) (s : RaceState) : RaceState :=
  sched.foldl (wstep mid) s

def raceInit : RaceState := ⟨[], [], .start, .start⟩


/- ===================================================================
   Shared lemmas about the components.
   =================================================================== -/

theorem mem_attempts_doSend {env : Env} {st : SysState} {body b : Str}
    (h : b ∈ (doSend env st body).attempts) : b ∈ st.attempts ∨ b = body := by
  simp [doSend] at h
  exact h

/-- A pattern of the fixed list that occurs in the normalized content makes
    is_system_generated_email return true. -/
theorem sysgen_of_pattern {b : Str} {sent : List String} {mid : String}
    (p : Str) (hp : p ∈ system_patterns)
    (h : containsSub (lowerS p) (trimS (lowerS b)) = true) :
    (is_system_generated_email b sent mid).1 = true := by
  unfold is_system_generated_email
  by_cases hc : mid ∈ sent
  · simp [hc]
  · simp only [hc, if_false]
    cases hf : system_patterns.find? (fun q => containsSub (lowerS q) (trimS (lowerS b))) with
    | some q => simp [hf]
    | none =>
      exfalso
      have := List.find?_eq_none.mp hf p hp
      simp [h] at this

/-- A message whose id is recorded in sent_message_ids is system-generated. -/
theorem sysgen_of_sentId {b : Str} {sent : List String} {mid : String}
    (h : mid ∈ sent) :
    (is_system_generated_email b sent mid).1 = true := by
  simp [is_system_generated_email, h]

/-- The four reply-body shapes this system ever sends: the acknowledgment
    (line 321), the progress update (line 344), the final result (line 365)
    and the error notice (line 384) of process_notification. -/
def sentBodyForm (b : Str) : Prop :=
  b = str "ack" ∨
  (∃ c, b = str "Progress update:\n\n" ++ c) ∨
  (∃ r, b = str "Task completed!\n\n" ++ r) ∨
  (∃ e, b = str "Claude processing failed with error: " ++ e)

theorem sysgen_marker_prefixed (marker tail rest : Str) (c : Char)
    (hm : marker ∈ system_patterns)
    (hmc : lowerS marker = c :: tail)
    (hc : pyWs c = false)
    (htr : trimRightS (c :: tail) = c :: tail)
    {b : Str} (hb : lowerS b = (c :: tail) ++ rest)
    {sent : List String} {mid : String} :
    (is_system_generated_email b sent mid).1 = true := by
  apply sysgen_of_pattern marker hm
  rw [hmc, hb, trimS_marker_append rest hc htr]
  exact containsSub_append _ _

/-- Every body of the form the system sends is classified system-generated,
    whatever the ledger contents. -/
theorem sysgen_of_sentBodyForm {b : Str} {sent : List String} {mid : String}
    (h : sentBodyForm b) : (is_system_generated_email b sent mid).1 = true := by
  rcases h with h | ⟨c, h⟩ | ⟨r, h⟩ | ⟨e, h⟩
  · subst h
    apply sysgen_of_pattern (str "ack") (by simp [system_patterns])
    decide
  · subst h
    apply sysgen_marker_prefixed (str "Progress update:") (str "rogress update:")
      (str "\n\n" ++ lowerS c) 'p' (by simp [system_patterns]) (by decide) (by decide)
      (by decide)
    rw [lowerS_append,
      (by decide :
        lowerS (str "Progress update:\n\n") = ('p' :: str "rogress update:") ++ str "\n\n"),
      List.append_assoc]
  · subst h
    apply sysgen_marker_prefixed (str "Task completed!") (str "ask completed!")
      (str "\n\n" ++ lowerS r) 't' (by simp [system_patterns]) (by decide) (by decide)
      (by decide)
    rw [lowerS_append,
      (by decide :
        lowerS (str "Task completed!\n\n") = ('t' :: str "ask completed!") ++ str "\n\n"),
      List.append_assoc]
  · subst h
    apply sysgen_marker_prefixed (str "Claude processing failed with error:")
      (str "laude processing failed with error:") (str " " ++ lowerS e) 'c'
      (by simp [system_patterns]) (by decide) (by decide) (by decide)
    rw [lowerS_append,
      (by decide :
        lowerS (str "Claude processing failed with error: ") =
          ('c' :: str "laude processing failed with error:") ++ str " "),
      List.append_assoc]

/-- The progress bodies forwarded for a chunk sequence, by position: the
    chunk arriving as the (n+1)-st update is forwarded iff its ordinal is a
    multiple of 3 and its length exceeds 50, with the progress marker
    prefixed (lines 341-344). -/
def progressBodiesFrom (n : Nat) : List Str → List Str
  | [] => []
  | c :: cs =>
    (if 50 < c.length ∧ (n + 1) % 3 = 0 then [str "Progress update:\n\n" ++ c]
     else []) ++ progressBodiesFrom (n + 1) cs

/-- The ids the environment grants to k consecutive send attempts starting
    at the given send counter (None outcomes grant nothing). -/
def grantedIds (env : Env) : Nat → Nat → List String
  | _, 0 => []
  | s, k + 1 =>
    (match env.sendId s with
     | some i => [i]
     | none => []) ++ grantedIds env (s + 1) k

theorem progressFold_none (env : Env) :
    ∀ (chunks : List Str) (st : SysState) (n : Nat),
    (chunks.foldl (progressStep env none) (st, n)).1 = st := by
  intro chunks
  induction chunks with
  | nil => intro st n; rfl
  | cons c cs ih =>
    intro st n
    rw [List.foldl_cons]
    have hstep : progressStep env none (st, n) c = (st, n + 1) := by
      simp [progressStep]
    rw [hstep]
    exact ih st (n + 1)

theorem progressFold_spec (env : Env) (t : String) :
    ∀ (chunks : List Str) (st : SysState) (n : Nat),
    (chunks.foldl (progressStep env (some t)) (st, n)).1 =
      { st with
        attempts := st.attempts ++ progressBodiesFrom n chunks,
        sentIds :=
          st.sentIds ++ grantedIds env st.sendCount (progressBodiesFrom n chunks).length,
        sendCount := st.sendCount + (progressBodiesFrom n chunks).length } := by
  intro chunks
  induction chunks with
  | nil =>
    intro st n
    cases st
    simp [progressBodiesFrom, grantedIds]
  | cons c cs ih =>
    intro st n
    rw [List.foldl_cons]
    by_cases h50 : 50 < c.length
    · by_cases h3 : (n + 1) % 3 = 0
      · have hstep : progressStep env (some t) (st, n) c =
            (doSend env st (str "Progress update:\n\n" ++ c), n + 1) := by
          simp [progressStep, h50, h3]
        rw [hstep, ih]
        cases hsend : env.sendId st.sendCount <;>
        · cases st
          simp [doSend, hsend, progressBodiesFrom, h50, h3, grantedIds]
          omega
      · have hstep : progressStep env (some t) (st, n) c = (st, n + 1) := by
          simp [progressStep, h3]
        rw [hstep, ih]
        have hcond : ¬ (50 < c.length ∧ (n + 1) % 3 = 0) := by tauto
        simp [progressBodiesFrom, hcond]
    · have hstep : progressStep env (some t) (st, n) c = (st, n + 1) := by
        simp [progressStep, h50]
      rw [hstep, ih]
      have hcond : ¬ (50 < c.length ∧ (n + 1) % 3 = 0) := by tauto
      simp [progressBodiesFrom, hcond]

theorem progressBodiesFrom_forms :
    ∀ (chunks : List Str) (n : Nat) (b : Str),
    b ∈ progressBodiesFrom n chunks →
    ∃ c, c ∈ chunks ∧ 50 < c.length ∧ b = str "Progress update:\n\n" ++ c := by
  intro chunks
  induction chunks with
  | nil => intro n b h; simp [progressBodiesFrom] at h
  | cons c cs ih =>
    intro n b h
    rw [progressBodiesFrom] at h
    rcases List.mem_append.mp h with h | h
    · by_cases hcond : 50 < c.length ∧ (n + 1) % 3 = 0
      · rw [if_pos hcond] at h
        exact ⟨c, List.mem_cons_self c cs, hcond.1, List.mem_singleton.mp h⟩
      · rw [if_neg hcond] at h
        simp at h
    · obtain ⟨c', hc', hl, hb⟩ := ih (n + 1) b h
      exact ⟨c', List.mem_cons_of_mem c hc', hl, hb⟩

/-- Every reply body the streaming phase attempts is either pre-existing or
    a progress-marker body. -/
theorem progressRun_attempts (env : Env) (tid : Option String) (st : SysState)
    (chunks : List Str) :
    ∀ b ∈ (progressRun env tid st chunks).attempts,
    b ∈ st.attempts ∨ ∃ c, b = str "Progress update:\n\n" ++ c := by
  intro b hb
  cases tid with
  | none =>
    rw [progressRun, progressFold_none] at hb
    exact Or.inl hb
  | some t =>
    rw [progressRun, progressFold_spec] at hb
    rcases List.mem_append.mp hb with h | h
    · exact Or.inl h
    · obtain ⟨c, _, _, hbc⟩ := progressBodiesFrom_forms chunks 0 b h
      exact Or.inr ⟨c, hbc⟩

/-- If every successfully fetched content would be classified
    system-generated, the candidate loop body leaves the state unchanged:
    each gate path ends in a skip. -/
theorem processCandidate_skip_of_sysgen (env : Env) (epoch : Nat)
    (st : SysState) (mid : String)
    (hsys : ∀ body, env.contentOf mid = some body →
      (is_system_generated_email body st.sentIds mid).1 = true) :
    processCandidate env epoch st mid = st := by
  unfold processCandidate
  split
  · rfl
  split
  · rfl
  split
  · rfl
  split
  · rename_i body sndr heqc heqs
    simp [hsys body heqc]
  · rfl

/-- A candidate whose fetched timestamp is truthy and predates the epoch is
    skipped no matter what the rest of the environment holds. -/
theorem processCandidate_skip_stale (env : Env) (epoch : Nat)
    (st : SysState) (mid : String) (t : Nat)
    (ht : env.timestamp mid = some t) (h0 : t ≠ 0) (hlt : t < epoch) :
    processCandidate env epoch st mid = st := by
  have hg : staleGate (env.timestamp mid) epoch = true := by
    rw [ht]
    simp [staleGate, h0, hlt]
  unfold processCandidate
  split
  · rfl
  · simp [hg]

/-- Post-gate processing with a falsy thread id: the candidate is marked
    processed and the agent is invoked, but no reply of any kind is
    attempted and the sent-id ledger is untouched. -/
theorem afterGates_noThread (env : Env) (st : SysState) (mid : String)
    (body sndr : Str) (h : threadTruthy (env.threadIdOf mid) = none) :
    afterGates env st mid body sndr =
      { st with
        processed := st.processed ++ [mid],
        agentCalls := st.agentCalls ++ [(mid, body, sndr)] } := by
  unfold afterGates
  rw [h]
  have hp : ∀ (x : SysState), progressRun env none x env.agentChunks = x :=
    fun x => progressFold_none env env.agentChunks x 0
  rw [hp]
  cases env.agentResult body sndr <;> rfl

/-- When all gates pass, the loop body is exactly the post-gate phase. -/
theorem processCandidate_eq_afterGates (env : Env) (epoch : Nat)
    (st : SysState) (mid : String) (body sndr subj : Str)
    (h1 : mid ∉ st.processed)
    (h2 : staleGate (env.timestamp mid) epoch = false)
    (h3 : (is_valid_claude_email (env.senderOf mid) (env.recipientOf mid)
      (env.subjectOf mid)).1 = true)
    (h4 : env.contentOf mid = some body)
    (h5 : env.senderOf mid = some sndr)
    (h6 : (is_system_generated_email body st.sentIds mid).1 = false)
    (h7 : env.subjectOf mid = some subj)
    (h8 : (trimS body).isEmpty = false) :
    processCandidate env epoch st mid = afterGates env st mid body sndr := by
  unfold processCandidate
  rw [if_neg h1, if_neg (by simp [h2]), if_neg (by simp [h3]), h4, h5]
  simp only [h6, Bool.false_eq_true, if_false, h7, h8]


theorem mem_attempts_ackStage {env : Env} {tid : Option String}
    {st : SysState} {b : Str} (h : b ∈ (ackStage env tid st).attempts) :
    b ∈ st.attempts ∨ b = str "ack" := by
  cases tid with
  | none => exact Or.inl h
  | some u => exact mem_attempts_doSend h

theorem mem_attempts_finalStage {env : Env} {tid : Option String}
    {st : SysState} {res : Except Str Str} {b : Str}
    (h : b ∈ (finalStage env tid st res).attempts) :
    b ∈ st.attempts ∨ (∃ r, b = str "Task completed!\n\n" ++ r) ∨
      (∃ e, b = str "Claude processing failed with error: " ++ e) := by
  cases res with
  | ok resp =>
    cases tid with
    | none => exact Or.inl h
    | some u =>
      by_cases hre : resp.isEmpty
      · rw [finalStage, if_pos hre] at h
        exact Or.inl h
      · rw [finalStage, if_neg hre] at h
        rcases mem_attempts_doSend h with h | h
        · exact Or.inl h
        · exact Or.inr (Or.inl ⟨resp, h⟩)
  | error e =>
    cases tid with
    | none => exact Or.inl h
    | some u =>
      rcases mem_attempts_doSend h with h | h
      · exact Or.inl h
      · exact Or.inr (Or.inr ⟨e, h⟩)

/-- Every reply body the candidate loop ever attempts to send has one of
    the four system shapes. -/
theorem processCandidate_attempts (env : Env) (epoch : Nat) (st : SysState)
    (mid : String) :
    ∀ b ∈ (processCandidate env epoch st mid).attempts,
    b ∈ st.attempts ∨ sentBodyForm b := by
  intro b hb
  unfold processCandidate at hb
  split at hb
  · exact Or.inl hb
  split at hb
  · exact Or.inl hb
  split at hb
  · exact Or.inl hb
  split at hb
  · rename_i body sndr heqc heqs
    split at hb
    · exact Or.inl hb
    · split at hb
      · exact Or.inl hb
      · split at hb
        · exact Or.inl hb
        · unfold afterGates at hb
          rcases mem_attempts_finalStage hb with h | h | h
          · rcases progressRun_attempts env _ _ env.agentChunks b h with h | ⟨c, hc⟩
            · rcases mem_attempts_ackStage (h : b ∈ (ackStage env _
                (markProcessed st mid)).attempts) with h | h
              · exact Or.inl h
              · exact Or.inr (Or.inl h)
            · exact Or.inr (Or.inr (Or.inl ⟨c, hc⟩))
          · exact Or.inr (Or.inr (Or.inr (Or.inl h)))
          · exact Or.inr (Or.inr (Or.inr (Or.inr h)))
  · exact Or.inl hb

/- ===================================================================
   Concrete fixtures used by witnesses and counterexamples.
   =================================================================== -/

def st0 : SysState := ⟨[], [], [], 0, 0, [], []⟩

def goodBody : Str := str "please write the weekly report"

def envGood : Env :=
  ⟨0, fun _ => .changes ["m1"], some [], fun _ => some 500,
   fun _ => some targetAddr, fun _ => some targetAddr,
   fun _ => some (str "CLAUDE"), fun _ => some goodBody,
   fun _ => some "t1", fun _ => some "r1", [],
   fun _ _ => .ok (str "all finished, thanks")⟩

def envZeroTs : Env := { envGood with timestamp := fun _ => some 0 }

def envUnavail : Env :=
  { envGood with historyRes := fun _ => .unavailable, unread := none }

def envAck : Env := { envGood with contentOf := fun _ => some (str "ack") }

def envNoThread : Env := { envGood with threadIdOf := fun _ => none }

def n0 : Notification := ⟨some "jonathanmingli@gmail.com", "h1"⟩

def ids101 : List String := (List.range 101).map toString

def ids51 : List String := (List.range 51).map toString

def st51 : SysState := ⟨[], [], ids51, 0, 0, [], []⟩

def st101 : SysState := ⟨ids101, ids101, ids51, 0, 0, [], []⟩

def alwaysSSL : Nat → Except GmailErr Nat := fun _ => .error (.transient "ssl")

def body7 : Str := str "Claude response generated for you today"

def longChunk : Str :=
  str "this streaming update is certainly longer than fifty characters in total"

def chunksW : List Str :=
  [str "short", str "also short", longChunk, str "tiny", str "x", longChunk]

/- ===================================================================
   Claim theorems.
   =================================================================== -/

/-- C1: the claim says the agent is invoked at most once per candidate id
    even across concurrent notifications, because marking the id processed
    precedes the first external side effect.  The code checks membership
    (lines 247-250) and inserts (lines 308-310) in two separate
    lock-protected sections, so the schedule below — both workers pass the
    check before either marks — drives the agent twice for the same id. -/
theorem claim1_race_double_agent_invocation :
    (runSched "m" [false, true, false, false, true, true] raceInit).agentRuns =
      ["m", "m"] ∧
    ¬ (runSched "m" [false, true, false, false, true, true]
        raceInit).agentRuns.length ≤ 1 := by
  constructor
  · rfl
  · decide

/-- C2 counterexample: when candidate resolution is unavailable (history
    lookup unavailable and the unread fallback returns the sentinel), the
    code returns normally from process_notification (lines 234-236), so the
    callback ACKs the message (line 415) — the claim says it is nacked for
    redelivery. -/
theorem claim2_resolution_unavailable_is_acked :
    (callback envUnavail 0 st0 (some n0)).2 = CbResult.ack ∧
    CbResult.ack ≠ CbResult.nack ∧
    (callback envUnavail 0 st0 (some n0)).1.agentCalls = [] := by
  refine ⟨rfl, by decide, rfl⟩

/-- C2 amended: if resolution is unavailable, the notification is aborted —
    no candidate is examined, nothing is sent, no agent call happens, and
    only the history cursor stays claimed — but the transport outcome is an
    acknowledgment (drop), not a nack (redeliver). -/
theorem claim2_amended_abort_then_ack (env : Env) (epoch : Nat)
    (st : SysState) (n : Notification)
    (h1 : env.historyRes n.historyId = HistRes.unavailable)
    (h2 : env.unread = none)
    (h3 : n.historyId ∉ (cleanup_processed_messages env.now st).historyIds) :
    callback env epoch st (some n) =
      ({ cleanup_processed_messages env.now st with
          historyIds :=
            (cleanup_processed_messages env.now st).historyIds ++
              [n.historyId] },
       CbResult.ack) := by
  simp only [callback, process_notification, h1, h2]
  rw [if_neg h3]

theorem claim2_amended_witness :
    callback envUnavail 0 st0 (some n0) =
      ({ cleanup_processed_messages envUnavail.now st0 with
          historyIds :=
            (cleanup_processed_messages envUnavail.now st0).historyIds ++
              [n0.historyId] },
       CbResult.ack) :=
  claim2_amended_abort_then_ack envUnavail 0 st0 n0 rfl rfl (by decide)

/-- C3 counterexample: a candidate whose receivedAt is 0 (the error
    fallback of get_message_timestamp) is strictly before the epoch 100,
    yet the truthiness test of line 257 lets it through and the agent is
    invoked — the claim says it is always skipped. -/
theorem claim3_zero_timestamp_not_skipped :
    envZeroTs.timestamp "m1" = some 0 ∧ 0 < 100 ∧
    (processCandidate envZeroTs 100 st0 "m1").agentCalls =
      [("m1", goodBody, targetAddr)] := by
  refine ⟨rfl, by decide, ?_⟩
  rfl

/-- C3 amended: a candidate with a truthy (non-zero) fetched timestamp
    strictly before the epoch is always skipped, whatever the rest of the
    environment; a 0 or unavailable timestamp does not trigger the
    staleness skip; a timestamp at or after the epoch never trips the
    staleness gate. -/
theorem claim3_amended_staleness (env : Env) (epoch : Nat) (st : SysState)
    (mid : String) (t : Nat) (ht : env.timestamp mid = some t) :
    (t ≠ 0 → t < epoch → processCandidate env epoch st mid = st) ∧
    (epoch ≤ t → staleGate (env.timestamp mid) epoch = false) ∧
    staleGate (some 0) epoch = false ∧
    staleGate none epoch = false := by
  refine ⟨?_, ?_, by simp [staleGate], rfl⟩
  · intro h0 hlt
    exact processCandidate_skip_stale env epoch st mid t ht h0 hlt
  · intro hle
    rw [ht]
    simp [staleGate]
    omega

theorem claim3_amended_witness :
    processCandidate envGood 1000 st0 "m1" = st0 ∧
    staleGate (envGood.timestamp "m1") 400 = false :=
  ⟨(claim3_amended_staleness envGood 1000 st0 "m1" 500 rfl).1 (by decide)
      (by decide),
   (claim3_amended_staleness envGood 400 st0 "m1" 500 rfl).2.1 (by decide)⟩

/-- C4 counterexample: the claim caps all three sets at 100, but the code
    trims sent_message_ids already above 50 (line 175): with 51 recorded
    sent ids and an hour elapsed, the code keeps 25 where the claimed
    behavior keeps all 51. -/
theorem claim4_sent_cap_is_50_not_100 :
    (cleanup_processed_messages 4000 st51).sentIds.length = 25 ∧
    (cleanupSpecCap100 4000 st51).sentIds.length = 51 := by
  constructor <;> rfl

/-- C4 amended: processed ids and history cursors are capped at 100 and
    trimmed to 50 when exceeded; sent reply ids are capped at 50 and
    trimmed to 25 when exceeded; after a compaction that fires, no set
    exceeds its cap. -/
theorem claim4_amended_bounds (now : Nat) (st : SysState)
    (h : 3600 < now - st.lastCleanup) :
    (cleanup_processed_messages now st).processed.length ≤
      max 100 st.processed.length ∧
    (cleanup_processed_messages now st).processed.length ≤ 100 ∧
    (cleanup_processed_messages now st).historyIds.length ≤ 100 ∧
    (cleanup_processed_messages now st).sentIds.length ≤ 50 ∧
    (100 < st.processed.length →
      (cleanup_processed_messages now st).processed.length = 50) ∧
    (100 < st.historyIds.length →
      (cleanup_processed_messages now st).historyIds.length = 50) ∧
    (50 < st.sentIds.length →
      (cleanup_processed_messages now st).sentIds.length = 25) := by
  have hc : cleanup_processed_messages now st =
      { st with
        processed :=
          if 100 < st.processed.length then keepLast 50 st.processed
          else st.processed,
        historyIds :=
          if 100 < st.historyIds.length then keepLast 50 st.historyIds
          else st.historyIds,
        sentIds :=
          if 50 < st.sentIds.length then keepLast 25 st.sentIds
          else st.sentIds,
        lastCleanup := now } := by
    unfold cleanup_processed_messages
    rw [if_pos h]
  rw [hc]
  refine ⟨?_, ?_, ?_, ?_, fun hp => ?_, fun hh => ?_, fun hs => ?_⟩ <;>
    (try dsimp only) <;> split_ifs <;> (try simp [keepLast_length]) <;> omega

theorem claim4_amended_witness :
    (cleanup_processed_messages 4000 st101).processed.length ≤ 100 ∧
    (cleanup_processed_messages 4000 st101).sentIds.length ≤ 50 := by
  have h := claim4_amended_bounds 4000 st101 (by decide)
  exact ⟨h.2.1, h.2.2.2.1⟩

/-- C5 counterexample: the claim compares the subject after trimming, but
    line 145 compares the raw header: subject "CLAUDE " (trailing blank)
    is rejected by the code while the claimed contract accepts it. -/
theorem claim5_trimming_not_applied :
    (is_valid_claude_email (some targetAddr) (some targetAddr)
      (some (str "CLAUDE "))).1 = false ∧
    isEligibleSpecTrimmed (some targetAddr) (some targetAddr)
      (some (str "CLAUDE ")) = true := by
  constructor <;> rfl

/-- C5 amended: given successfully fetched headers, eligibility holds iff
    sender and recipient each equal the target address case-insensitively
    and the raw, untrimmed subject equals CLAUDE case-insensitively; the
    lowercase subject claude is eligible. -/
theorem claim5_amended_eligibility :
    (∀ s r j : Str,
      (is_valid_claude_email (some s) (some r) (some j)).1 = true ↔
        (lowerS s = targetAddr ∧ lowerS r = targetAddr ∧
          upperS j = requiredSubjectUpper)) ∧
    (is_valid_claude_email (some targetAddr) (some targetAddr)
      (some (str "claude"))).1 = true := by
  constructor
  · intro s r j
    simp only [is_valid_claude_email]
    split_ifs with h1 h2 h3 <;> simp_all
  · rfl

theorem claim5_amended_witness :
    (is_valid_claude_email (some targetAddr) (some targetAddr)
      (some (str "ClAuDe"))).1 = true :=
  (claim5_amended_eligibility.1 targetAddr targetAddr (str "ClAuDe")).mpr
    ⟨rfl, rfl, rfl⟩

/-- C6: wrapping an operation that always raises a transient-class error,
    retry_gmail_operation invokes it exactly max_retries times (default 3),
    sleeps delay * 2 ^ attempt between attempts, and returns the None
    sentinel without propagating; a non-transient exception propagates from
    the first attempt with no retry and no sleep. -/
theorem claim6_retry_behavior {α : Type} :
    (∀ (op : Nat → Except GmailErr α) (maxR delay : Nat), 0 < maxR →
      (∀ k, k < maxR → ∃ m, op k = .error (.transient m)) →
      retry_gmail_operation op maxR delay =
        ⟨.unavailable, (List.range (maxR - 1)).map (fun i => delay * 2 ^ i),
          maxR⟩) ∧
    (∀ (op : Nat → Except GmailErr α) (maxR delay : Nat) (m : String),
      0 < maxR → op 0 = .error (.nontransient m) →
      retry_gmail_operation op maxR delay = ⟨.raised m, [], 1⟩) := by
  constructor
  · intro op maxR delay hpos hop
    unfold retry_gmail_operation
    rw [retryFrom_all_transient op delay maxR 0 hpos
      (fun k hk1 hk2 => hop k (by omega))]
    simp
  · intro op maxR delay m hpos h0
    obtain ⟨n, rfl⟩ : ∃ n, maxR = n + 1 :=
      ⟨maxR - 1, by omega⟩
    unfold retry_gmail_operation retryFrom
    rw [h0]

theorem claim6_retry_witness :
    retry_gmail_operation alwaysSSL 3 2 =
      ⟨RetryOutcome.unavailable, [2, 4], 3⟩ := by
  have h := (@claim6_retry_behavior Nat).1 alwaysSSL 3 2 (by decide)
    (fun k _ => ⟨"ssl", rfl⟩)
  rw [h]
  rfl

/-- C7 counterexample: the claim enumerates five marker substrings, but the
    source list (lines 95-102) has a sixth, "Claude response generated": a
    body containing only that marker is classified system-generated by the
    code while the five-marker contract of the claim says it is not. -/
theorem claim7_sixth_marker_missing_from_claim :
    (is_system_generated_email body7 [] "m").1 = true ∧
    isSystemGeneratedSpecFive body7 [] "m" = false := by
  constructor <;> rfl

/-- C7 amended: is_system_generated_email returns true iff the id is in
    sent_message_ids, or the lower-cased trimmed body contains one of the
    SIX fixed patterns (ack, progress update, task completed, failure,
    processing-started, response-generated), or the trimmed body is shorter
    than 10 characters; body "ack" is flagged with a reason containing
    "ack". -/
theorem claim7_amended_system_generated :
    (∀ (content : Str) (sentIds : List String) (mid : String),
      (is_system_generated_email content sentIds mid).1 = true ↔
        (mid ∈ sentIds ∨
         (∃ p ∈ system_patterns,
           containsSub (lowerS p) (trimS (lowerS content)) = true) ∨
         (trimS (lowerS content)).length < 10)) ∧
    (is_system_generated_email (str "ack") [] "x").1 = true ∧
    containsSub (str "ack")
      (is_system_generated_email (str "ack") [] "x").2 = true := by
  refine ⟨?_, rfl, rfl⟩
  intro content sentIds mid
  unfold is_system_generated_email
  by_cases hc : mid ∈ sentIds
  · simp [hc]
  · simp only [hc, if_false]
    cases hf : system_patterns.find?
        (fun p => containsSub (lowerS p) (trimS (lowerS content))) with
    | some p =>
      simp only [hf]
      constructor
      · intro _
        refine Or.inr (Or.inl ⟨p, List.mem_of_find?_eq_some hf, ?_⟩)
        have hpa := List.find?_some hf
        simpa using hpa
      · intro _
        trivial
    | none =>
      have hnone : ∀ p ∈ system_patterns,
          containsSub (lowerS p) (trimS (lowerS content)) = false :=
        fun p hp => by simpa using List.find?_eq_none.mp hf p hp
      simp only [hf]
      by_cases hlen : (trimS (lowerS content)).length < 10
      · simp only [hlen, if_true, if_pos hlen]
        simp [hlen]
      · simp only [if_neg hlen]
        simp only [hc, hlen, or_false, false_or]
        constructor
        · intro hfalse
          simp at hfalse
        · rintro ⟨p, hp, hcon⟩
          rw [hnone p hp] at hcon
          simp at hcon

/-- C8: no self-loop — a message whose id was recorded as self-sent is
    skipped whatever else the environment says; a message whose body has
    any of the four shapes this system sends is skipped before any agent
    invocation; and every reply body this pipeline ever attempts to send
    has one of those four shapes, closing the loop. -/
theorem claim8_no_self_loop :
    (∀ (env : Env) (epoch : Nat) (st : SysState) (mid : String),
      mid ∈ st.sentIds → processCandidate env epoch st mid = st) ∧
    (∀ (env : Env) (epoch : Nat) (st : SysState) (mid : String) (body : Str),
      env.contentOf mid = some body → sentBodyForm body →
      processCandidate env epoch st mid = st) ∧
    (∀ (env : Env) (epoch : Nat) (st : SysState) (mid : String) (b : Str),
      b ∈ (processCandidate env epoch st mid).attempts →
      b ∈ st.attempts ∨ sentBodyForm b) := by
  refine ⟨?_, ?_, ?_⟩
  · intro env epoch st mid h
    exact processCandidate_skip_of_sysgen env epoch st mid
      (fun body _ => sysgen_of_sentId h)
  · intro env epoch st mid body hb hform
    apply processCandidate_skip_of_sysgen
    intro body' hb'
    rw [hb] at hb'
    have hbb : body' = body := (Option.some.inj hb').symm
    rw [hbb]
    exact sysgen_of_sentBodyForm hform
  · intro env epoch st mid b hb
    exact processCandidate_attempts env epoch st mid b hb

theorem claim8_no_self_loop_witness :
    processCandidate envAck 0 st0 "m1" = st0 :=
  claim8_no_self_loop.2.1 envAck 0 st0 "m1" (str "ack") rfl (Or.inl rfl)

/-- C9: with a truthy thread id, the streaming callback forwards exactly
    the chunks whose 1-based ordinal is a multiple of 3 and whose length
    exceeds 50, each as a body prefixed with the progress marker; the ids
    the mailbox grants for those sends are recorded as self-sent; every
    forwarded body comes from a chunk longer than 50 — chunks of length 50
    or less are never forwarded. -/
theorem claim9_progress_throttle (env : Env) (t : String) (st : SysState)
    (chunks : List Str) :
    (progressRun env (some t) st chunks).attempts =
      st.attempts ++ progressBodiesFrom 0 chunks ∧
    (progressRun env (some t) st chunks).sentIds =
      st.sentIds ++
        grantedIds env st.sendCount (progressBodiesFrom 0 chunks).length ∧
    (∀ b ∈ progressBodiesFrom 0 chunks,
      ∃ c, c ∈ chunks ∧ 50 < c.length ∧
        b = str "Progress update:\n\n" ++ c) := by
  refine ⟨?_, ?_, progressBodiesFrom_forms chunks 0⟩
  · rw [progressRun, progressFold_spec]
  · rw [progressRun, progressFold_spec]

theorem claim9_progress_witness :
    (progressRun envGood (some "t1") st0 chunksW).attempts =
      st0.attempts ++ progressBodiesFrom 0 chunksW :=
  (claim9_progress_throttle envGood "t1" st0 chunksW).1

/-- C10: when every gate passes but the thread-id lookup is falsy, the
    message is marked processed and the agent is invoked with its body and
    sender, yet no acknowledgment, progress, final or error reply is ever
    attempted and the sent-id ledger is untouched; re-processing the same
    id afterwards is a no-op. -/
theorem claim10_thread_unavailable_silent (env : Env) (epoch : Nat)
    (st : SysState) (mid : String) (body sndr subj : Str)
    (h1 : mid ∉ st.processed)
    (h2 : staleGate (env.timestamp mid) epoch = false)
    (h3 : (is_valid_claude_email (env.senderOf mid) (env.recipientOf mid)
      (env.subjectOf mid)).1 = true)
    (h4 : env.contentOf mid = some body)
    (h5 : env.senderOf mid = some sndr)
    (h6 : (is_system_generated_email body st.sentIds mid).1 = false)
    (h7 : env.subjectOf mid = some subj)
    (h8 : (trimS body).isEmpty = false)
    (h9 : threadTruthy (env.threadIdOf mid) = none) :
    processCandidate env epoch st mid =
      { st with processed := st.processed ++ [mid],
                agentCalls := st.agentCalls ++ [(mid, body, sndr)] } ∧
    processCandidate env epoch
      { st with processed := st.processed ++ [mid],
                agentCalls := st.agentCalls ++ [(mid, body, sndr)] } mid =
      { st with processed := st.processed ++ [mid],
                agentCalls := st.agentCalls ++ [(mid, body, sndr)] } := by
  constructor
  · rw [processCandidate_eq_afterGates env epoch st mid body sndr subj h1 h2
      h3 h4 h5 h6 h7 h8]
    exact afterGates_noThread env st mid body sndr h9
  · have hmem : mid ∈ ({ st with
        processed := st.processed ++ [mid],
        agentCalls := st.agentCalls ++ [(mid, body, sndr)] } :
          SysState).processed := by
      simp
    unfold processCandidate
    rw [if_pos hmem]

theorem claim10_witness :
    processCandidate envNoThread 400 st0 "m1" =
      { st0 with processed := st0.processed ++ ["m1"],
                 agentCalls := st0.agentCalls ++ [("m1", goodBody, targetAddr)] } :=
  (claim10_thread_unavailable_silent envNoThread 400 st0 "m1" goodBody
    targetAddr (str "CLAUDE") (by simp [st0]) rfl rfl rfl rfl rfl rfl rfl
    rfl).1

theorem claim7_amended_witness :
    (is_system_generated_email body7 [] "m").1 = true :=
  (claim7_amended_system_generated.1 body7 [] "m").mpr
    (Or.inr (Or.inl ⟨str "Claude response generated",
      by simp [system_patterns], by decide⟩))
